import Mathlib

/-!
Shallow embedding of the ledger engine of `src/app.py` (class `BankrollTracker`
and the Streamlit helpers around it), together with proofs about it.

Monetary amounts are modelled as rationals.  The Google-Sheets gateway is
modelled by its observable behaviour: a `LoadResult` describing what
`connect_to_sheets` / `get_all_records` delivered, and a boolean telling
whether `_sauvegarder` found a connected sheet.
-/

namespace Bankroll

/-- One row of the tracker's dataframe, with the columns
`Date, Type, Montant_Pari, Cote, Résultat, Gain_Net, Bankroll_Finale, Details_Pari`
of `src/app.py`. -/
structure Row where
  date : String
  ty : String
  montantPari : ℚ
  cote : ℚ
  resultat : String
  gainNet : ℚ
  bankrollFinale : ℚ
  detailsPari : String
deriving DecidableEq

/-- Default row used with `List.getD` / `List.getLastD`. -/
def dRow : Row :=
  { date := "", ty := "", montantPari := 0, cote := 0, resultat := "",
    gainNet := 0, bankrollFinale := 0, detailsPari := "" }

instance : Inhabited Row := ⟨dRow⟩

/-- A raw persisted row as returned by `sheet.get_all_records`: the string
columns verbatim, the numeric columns possibly non-numeric (`none`), in which
case `pd.to_numeric(..., errors=\x27coerce\x27).fillna(0.0)` turns them into `0.0`. -/
structure RawRow where
  date : String
  ty : String
  montantPari : Option ℚ
  cote : Option ℚ
  resultat : String
  gainNet : Option ℚ
  bankrollFinale : Option ℚ
  detailsPari : String
deriving DecidableEq

/-- What the gateway delivered on load: either no sheet connection
(`connect_to_sheets` returned `None` or reading failed), or a table that
either has all expected columns or not, with its data rows. -/
inductive LoadResult where
  | noSheet : LoadResult
  | rows (hasAllColumns : Bool) (data : List RawRow) : LoadResult
deriving DecidableEq

/-- Numeric coercion of a raw row, as in `_charger_ou_initialiser_df`:
`pd.to_numeric(self.df[col], errors=\x27coerce\x27).fillna(0.0)` on the four
numeric columns; string columns are kept as they are. -/
def coerceRow (r : RawRow) : Row :=
  { date := r.date, ty := r.ty,
    montantPari := r.montantPari.getD 0,
    cote := r.cote.getD 0,
    resultat := r.resultat,
    gainNet := r.gainNet.getD 0,
    bankrollFinale := r.bankrollFinale.getD 0,
    detailsPari := r.detailsPari }

/-- `_creer_df_initial`: the single `DEBUT` row dated today, with
`Bankroll_Finale = solde_initial` and the other numeric columns `0.0`. -/
def creerDfInitial (soldeInitial : ℚ) (today : String) : List Row :=
  [{ date := today, ty := "DEBUT", montantPari := 0, cote := 0, resultat := "N/A",
     gainNet := 0, bankrollFinale := soldeInitial, detailsPari := "N/A" }]

/-- Inclusive running sums starting from an accumulator: the model of
`pandas.Series.cumsum`. -/
def cumsumFrom (acc : ℚ) : List ℚ → List ℚ
  | [] => []
  | x :: xs => (acc + x) :: cumsumFrom (acc + x) xs

/-- `self.df[\x27Gain_Net\x27].cumsum()`. -/
def cumsum (l : List ℚ) : List ℚ := cumsumFrom 0 l

/-- The in-memory state of a `BankrollTracker`: `solde_initial`, the dataframe
`self.df`, and `self.bankroll_actuelle`. -/
structure BankrollTracker where
  soldeInitial : ℚ
  df : List Row
  bankrollActuelle : ℚ
deriving DecidableEq

/-- `calculer_bankroll_historique(self, solde_initial)`: if the dataframe is
empty do nothing; otherwise look for the first `DEBUT` row.  If one exists,
take its (current) `Bankroll_Finale` as the start balance and overwrite the
whole `Bankroll_Finale` column with `start + Gain_Net.cumsum()`; otherwise
start from the `solde_initial` argument.  Either way `bankroll_actuelle`
becomes the last entry of the new column.  `Gain_Net` itself is not touched. -/
def calculerBankrollHistorique (t : BankrollTracker) (soldeInitial : ℚ) :
    BankrollTracker :=
  if t.df.isEmpty then t
  else
    match t.df.find? (fun r => r.ty == "DEBUT") with
    | some r0 =>
        let startSolde := r0.bankrollFinale
        let bfs := (cumsum (t.df.map (fun r => r.gainNet))).map (fun c => startSolde + c)
        let df2 := List.zipWith (fun r b => { r with bankrollFinale := b }) t.df bfs
        { t with df := df2, bankrollActuelle := bfs.getLastD 0 }
    | none =>
        let bfs := (cumsum (t.df.map (fun r => r.gainNet))).map (fun c => soldeInitial + c)
        let df2 := List.zipWith (fun r b => { r with bankrollFinale := b }) t.df bfs
        { t with df := df2, bankrollActuelle := bfs.getLastD 0 }

/-- The loading half of `_charger_ou_initialiser_df` (src/app.py:78-104):
accept the gateway's rows only if they are non-empty and all expected columns
are present (numeric columns coerced); on a missing sheet, missing columns or
no data, build the fresh initial row instead. -/
def loadDf (soldeInitial : ℚ) (today : String) : LoadResult → List Row
  | .noSheet => creerDfInitial soldeInitial today
  | .rows hasAllColumns data =>
      if data.isEmpty || !hasAllColumns then creerDfInitial soldeInitial today
      else data.map coerceRow

/-- The anchor check of `_charger_ou_initialiser_df` (src/app.py:106-108): if
the dataframe is empty or its first row's `Type` is not `DEBUT`, rebuild the
fresh initial row. -/
def ensureDebut (soldeInitial : ℚ) (today : String) (df0 : List Row) : List Row :=
  match df0.head? with
  | none => creerDfInitial soldeInitial today
  | some r => if r.ty = "DEBUT" then df0 else creerDfInitial soldeInitial today

/-- `_charger_ou_initialiser_df` for a given gateway answer `load`: load and
validate, then run `calculer_bankroll_historique(self.solde_initial)`
(src/app.py:110-111). -/
def chargerOuInitialiser (soldeInitial : ℚ) (today : String) (load : LoadResult) :
    BankrollTracker :=
  calculerBankrollHistorique
    { soldeInitial := soldeInitial,
      df := ensureDebut soldeInitial today (loadDf soldeInitial today load),
      bankrollActuelle := soldeInitial }
    soldeInitial

/-- `BankrollTracker.__init__(solde_initial)` under gateway answer `load`:
run `_charger_ou_initialiser_df`, then set `bankroll_actuelle` to the last
`Bankroll_Finale` when the dataframe is non-empty, to `solde_initial`
otherwise. -/
def trackerInit (soldeInitial : ℚ) (today : String) (load : LoadResult) :
    BankrollTracker :=
  let t := chargerOuInitialiser soldeInitial today load
  if t.df.isEmpty then { t with bankrollActuelle := soldeInitial }
  else { t with bankrollActuelle := (t.df.getLastD dRow).bankrollFinale }

/-- A Python return value of `ajouter_pari` / `ajouter_fonds`: either an error
message string or the boolean returned by `_sauvegarder`. -/
inductive PyRet where
  | s (msg : String) : PyRet
  | b (ok : Bool) : PyRet
deriving DecidableEq

/-- Python truthiness of such a return value: a string is truthy iff
non-empty, a boolean is itself. -/
def truthy : PyRet → Bool
  | .s msg => !(msg == "")
  | .b ok => ok

/-- `_sauvegarder`: returns `True` exactly when `connect_to_sheets` yielded a
sheet (the write itself then succeeds), `False` otherwise. -/
def sauvegarder (sheetOk : Bool) : Bool :=
  if sheetOk then true else false

/-- The validation message of `ajouter_pari`. -/
def errPari : String :=
  "Erreur: Le résultat doit être \x27Gagné\x27, \x27Perdu\x27 ou \x27Annulé\x27."

/-- The validation message of `ajouter_fonds`. -/
def errFonds : String := "Erreur: Le type doit être \x27DEPOT\x27 ou \x27RETRAIT\x27."

/-- The `gain_net` computation of `ajouter_pari` (src/app.py:166-171). -/
def pariGainNet (montantPari cote : ℚ) (resultat : String) : ℚ :=
  if resultat = "Gagné" then montantPari * cote - montantPari
  else if resultat = "Perdu" then -montantPari
  else 0

/-- `ajouter_pari(date_str, montant_pari, cote, resultat, details_pari)` with
gateway availability `sheetOk`.  Returns the new state together with the
Python return value (the original method mutates `self`). -/
def ajouterPari (t : BankrollTracker) (dateStr : String) (montantPari cote : ℚ)
    (resultat : String) (detailsPari : String) (sheetOk : Bool) :
    BankrollTracker × PyRet :=
  if resultat ∉ (["Gagné", "Perdu", "Annulé"] : List String) then
    (t, .s errPari)
  else
    let gainNet : ℚ := pariGainNet montantPari cote resultat
    let nouvelleBankroll := t.bankrollActuelle + gainNet
    let nouvelleEntree : Row :=
      { date := dateStr, ty := "Pari", montantPari := montantPari, cote := cote,
        resultat := resultat, gainNet := gainNet,
        bankrollFinale := nouvelleBankroll, detailsPari := detailsPari }
    ({ t with df := t.df ++ [nouvelleEntree], bankrollActuelle := nouvelleBankroll },
     .b (sauvegarder sheetOk))

/-- `ajouter_fonds(montant, type_operation)` with gateway availability
`sheetOk`; the new row is dated `today` (`datetime.now()`). -/
def ajouterFonds (t : BankrollTracker) (montant : ℚ) (typeOperation : String)
    (today : String) (sheetOk : Bool) : BankrollTracker × PyRet :=
  if typeOperation ∉ (["DEPOT", "RETRAIT"] : List String) then
    (t, .s errFonds)
  else
    let gainNet : ℚ := if typeOperation = "DEPOT" then montant else -montant
    let nouvelleBankroll := t.bankrollActuelle + gainNet
    let nouvelleEntree : Row :=
      { date := today, ty := typeOperation, montantPari := 0, cote := 0,
        resultat := "N/A", gainNet := gainNet,
        bankrollFinale := nouvelleBankroll, detailsPari := "N/A" }
    ({ t with df := t.df ++ [nouvelleEntree], bankrollActuelle := nouvelleBankroll },
     .b (sauvegarder sheetOk))

/-- The statistics record of the statistics engine. -/
structure Stats where
  wagerCount : ℕ
  totalStaked : ℚ
  netWagerProfit : ℚ
  returnOnInvestment : ℚ
  winRate : ℚ
deriving DecidableEq

/-- Modelled from the spec: the body of `calculer_statistiques` is not present
under `src/` (only its caller `display_stats` is, src/app.py:211-229, which
tests the result for truthiness).  Following spec §4.3: statistics range over
`WAGER` (`Pari`) rows only; with zero wagers the "no statistics available"
sentinel (`None`, here `none`) is returned; `return_on_investment` is
`net_wager_profit / total_staked * 100` when `total_staked > 0` and `0.0`
otherwise; `win_rate` is `won_count / wager_count * 100`. -/
def calculerStatistiques (t : BankrollTracker) : Option Stats :=
  let wagers := t.df.filter (fun r => r.ty == "Pari")
  if wagers.length = 0 then none
  else
    let totalStaked := (wagers.map (fun r => r.montantPari)).sum
    let netWagerProfit := (wagers.map (fun r => r.gainNet)).sum
    let wonCount := (wagers.filter (fun r => r.resultat == "Gagné")).length
    some
      { wagerCount := wagers.length,
        totalStaked := totalStaked,
        netWagerProfit := netWagerProfit,
        returnOnInvestment :=
          if 0 < totalStaked then netWagerProfit / totalStaked * 100 else 0,
        winRate := (wonCount : ℚ) / (wagers.length : ℚ) * 100 }

/-- The `net_delta` derivation table of spec §4.2, read as a pure function of
the row's `kind`/`stake`/`odds`/`outcome` (for fund movements the spec's
"amount" has no column of its own, so the stake column is the only candidate).
This definition follows the spec's words and is compared against the code. -/
def specNetDelta (ty : String) (stake odds : ℚ) (outcome : String) : ℚ :=
  if ty = "DEBUT" then 0
  else if ty = "Pari" then
    if outcome = "Gagné" then stake * odds - stake
    else if outcome = "Perdu" then -stake
    else 0
  else if ty = "DEPOT" then stake
  else if ty = "RETRAIT" then -stake
  else 0

/-- Helper: the direct recursion computing the recomputed `Bankroll_Finale`
column row by row; proved equal to the `cumsum`/`zipWith` form used by
`calculer_bankroll_historique`. -/
def recomputeBF (acc : ℚ) : List Row → List Row
  | [] => []
  | r :: rs =>
      { r with bankrollFinale := acc + r.gainNet } :: recomputeBF (acc + r.gainNet) rs

/-- The adjacency relation of invariant I3: each row's balance is the previous
row's balance plus its own `Gain_Net`. -/
def stepR (a b : Row) : Prop := b.bankrollFinale = a.bankrollFinale + b.gainNet

/-- A single user-level mutation of the tracker: `ajouter_pari` or
`ajouter_fonds` with arbitrary arguments and gateway availability. -/
inductive Step : BankrollTracker → BankrollTracker → Prop
  | pari (t : BankrollTracker) (dateStr : String) (montantPari cote : ℚ)
      (resultat detailsPari : String) (sheetOk : Bool) :
      Step t (ajouterPari t dateStr montantPari cote resultat detailsPari sheetOk).1
  | fonds (t : BankrollTracker) (montant : ℚ) (typeOperation today : String)
      (sheetOk : Bool) :
      Step t (ajouterFonds t montant typeOperation today sheetOk).1

/-- Reachable tracker states: any `__init__` result (over any gateway answer,
including arbitrary well-formed stored rows), followed by any sequence of
append operations. -/
inductive Reachable : BankrollTracker → Prop
  | init (soldeInitial : ℚ) (today : String) (load : LoadResult) :
      Reachable (trackerInit soldeInitial today load)
  | step {t t' : BankrollTracker} : Reachable t → Step t t' → Reachable t'

/-- The invariant carried by every reachable state: a non-empty dataframe
whose first row is the `DEBUT` row, balances forming a cumulative sum of the
`Gain_Net` column, and `bankroll_actuelle` equal to the last balance. -/
def Inv (t : BankrollTracker) : Prop :=
  t.df ≠ [] ∧ (t.df.headD dRow).ty = "DEBUT" ∧ List.Chain' stepR t.df ∧
    t.bankrollActuelle = (t.df.getLastD dRow).bankrollFinale

/-- The discarded-load condition of spec §4.2 step 2: rows empty, malformed
(missing required columns), or first row's kind not `ANCHOR`. -/
def badLoad : LoadResult → Prop
  | .noSheet => True
  | .rows hasAllColumns data =>
      data = [] ∨ hasAllColumns = false ∨
        ∃ r0 rs, data = r0 :: rs ∧ r0.ty ≠ "DEBUT"

/-- A well-formed stored anchor row (stored `Gain_Net` 0, balance 100). -/
def rawAnchor : RawRow :=
  { date := "2026-01-01", ty := "DEBUT", montantPari := some 0, cote := some 0,
    resultat := "N/A", gainNet := some 0, bankrollFinale := some 100,
    detailsPari := "N/A" }

/-- A stored anchor row carrying a nonzero stored `Gain_Net`. -/
def rawAnchorG5 : RawRow :=
  { date := "2026-01-01", ty := "DEBUT", montantPari := some 0, cote := some 0,
    resultat := "N/A", gainNet := some 5, bankrollFinale := some 100,
    detailsPari := "N/A" }

/-- A stored won wager row (stake 10, odds 3) whose stored `Gain_Net` (999)
disagrees with the §4.2 table value (20). -/
def rawWagerStored : RawRow :=
  { date := "2026-01-02", ty := "Pari", montantPari := some 10, cote := some 3,
    resultat := "Gagné", gainNet := some 999, bankrollFinale := some 0,
    detailsPari := "x" }

/-! ### List helper lemmas -/

lemma getLastD_cons' {α : Type*} (a : α) (l : List α) (d : α) :
    (a :: l).getLastD d = l.getLastD a := by
  cases l <;> rfl

lemma getLastD_append_single {α : Type*} (l : List α) (a : α) (d : α) :
    (l ++ [a]).getLastD d = a := by
  induction l generalizing d with
  | nil => rfl
  | cons b l ih => rw [List.cons_append, getLastD_cons', ih]

lemma getLast?_eq_getLastD (l : List Row) (h : l ≠ []) :
    l.getLast? = some (l.getLastD dRow) := by
  induction l with
  | nil => exact absurd rfl h
  | cons a l ih =>
      cases l with
      | nil => rfl
      | cons b l' =>
          rw [List.getLast?_cons_cons, ih (by simp), getLastD_cons', getLastD_cons',
              getLastD_cons']

lemma headD_append_single (l : List Row) (a : Row) (d : Row) (h : l ≠ []) :
    (l ++ [a]).headD d = l.headD d := by
  cases l with
  | nil => exact absurd rfl h
  | cons b l' => rfl

lemma getLastD_map_bf (l : List Row) :
    ((l.map fun r => r.bankrollFinale).getLastD 0) = (l.getLastD dRow).bankrollFinale := by
  have key : ∀ (l : List Row) (d : Row),
      ((l.map fun r => r.bankrollFinale).getLastD d.bankrollFinale)
        = (l.getLastD d).bankrollFinale := by
    intro l
    induction l with
    | nil => intro d; rfl
    | cons a l ih =>
        intro d
        rw [List.map_cons, getLastD_cons', ih a, getLastD_cons']
  exact key l dRow

lemma chain'_getD (l : List Row) (hc : List.Chain' stepR l) :
    ∀ i : ℕ, i + 1 < l.length → stepR (l.getD i dRow) (l.getD (i + 1) dRow) := by
  induction l with
  | nil => intro i h; simp at h
  | cons a l ih =>
      intro i hi
      cases l with
      | nil => simp at hi
      | cons b l' =>
          cases i with
          | zero => simpa [List.getD] using (List.chain'_cons.mp hc).1
          | succ j =>
              have hj : j + 1 < (b :: l').length := by
                simpa [Nat.succ_lt_succ_iff] using hi
              simpa [List.getD] using ih (List.chain'_cons.mp hc).2 j hj

/-! ### Properties of the recomputation pass -/

lemma zipSet_eq_recomputeBF (df : List Row) (start : ℚ) :
    ∀ acc : ℚ,
      List.zipWith (fun r b => { r with bankrollFinale := b }) df
          ((cumsumFrom acc (df.map fun r => r.gainNet)).map fun c => start + c)
        = recomputeBF (start + acc) df := by
  induction df with
  | nil => intro acc; rfl
  | cons r rs ih =>
      intro acc
      simp only [List.map_cons, cumsumFrom, List.zipWith_cons_cons, recomputeBF]
      rw [ih (acc + r.gainNet)]
      simp [add_assoc]

lemma mapBF_recomputeBF (df : List Row) (start : ℚ) :
    ∀ acc : ℚ,
      ((cumsumFrom acc (df.map fun r => r.gainNet)).map fun c => start + c)
        = (recomputeBF (start + acc) df).map fun r => r.bankrollFinale := by
  induction df with
  | nil => intro acc; rfl
  | cons r rs ih =>
      intro acc
      simp only [List.map_cons, cumsumFrom, recomputeBF]
      rw [ih (acc + r.gainNet)]
      simp [add_assoc]

lemma recomputeBF_map_gainNet (df : List Row) :
    ∀ acc : ℚ, (recomputeBF acc df).map (fun r => r.gainNet) = df.map fun r => r.gainNet := by
  induction df with
  | nil => intro acc; rfl
  | cons r rs ih => intro acc; simp only [recomputeBF, List.map_cons, ih]

lemma recomputeBF_chain (df : List Row) :
    ∀ acc : ℚ, List.Chain' stepR (recomputeBF acc df) := by
  induction df with
  | nil => intro acc; exact List.chain'_nil
  | cons r rs ih =>
      intro acc
      cases rs with
      | nil => exact List.chain'_singleton _
      | cons s ss =>
          rw [recomputeBF, recomputeBF, List.chain'_cons]
          refine ⟨rfl, ?_⟩
          have := ih (acc + r.gainNet)
          rwa [recomputeBF] at this

lemma recomputeBF_idem (df : List Row) :
    ∀ acc : ℚ, recomputeBF acc (recomputeBF acc df) = recomputeBF acc df := by
  induction df with
  | nil => intro acc; rfl
  | cons r rs ih =>
      intro acc
      simp only [recomputeBF]
      exact congrArg _ (ih (acc + r.gainNet))

/-- Characterization of `calculer_bankroll_historique` on a dataframe whose
first row is a `DEBUT` row: the balance column is recomputed row by row from
that row's stored balance. -/
lemma calc_eq_recompute (t : BankrollTracker) (s : ℚ) (r : Row) (rs : List Row)
    (hdf : t.df = r :: rs) (hty : r.ty = "DEBUT") :
    calculerBankrollHistorique t s =
      { t with df := recomputeBF r.bankrollFinale t.df,
               bankrollActuelle :=
                 ((recomputeBF r.bankrollFinale t.df).getLastD dRow).bankrollFinale } := by
  have hfind : (r :: rs).find? (fun x => x.ty == "DEBUT") = some r :=
    List.find?_cons_of_pos _ (by simp [hty])
  rw [calculerBankrollHistorique, hdf]
  simp only [List.isEmpty_cons, Bool.false_eq_true, if_false, hfind, cumsum]
  rw [zipSet_eq_recomputeBF (r :: rs) r.bankrollFinale 0, add_zero,
      mapBF_recomputeBF (r :: rs) r.bankrollFinale 0, add_zero, getLastD_map_bf]

/-! ### The reachable-state invariant -/

lemma ensureDebut_shape (s : ℚ) (today : String) (df0 : List Row) :
    ∃ r rs, ensureDebut s today df0 = r :: rs ∧ r.ty = "DEBUT" := by
  cases df0 with
  | nil => exact ⟨_, [], rfl, rfl⟩
  | cons a l =>
      by_cases h : a.ty = "DEBUT"
      · exact ⟨a, l, by simp [ensureDebut, h], h⟩
      · have hrow : (creerDfInitial s today).headD dRow
            = { date := today, ty := "DEBUT", montantPari := 0, cote := 0,
                resultat := "N/A", gainNet := 0, bankrollFinale := s,
                detailsPari := "N/A" } := rfl
        refine ⟨(creerDfInitial s today).headD dRow, [], ?_, ?_⟩
        · rw [hrow]; simp [ensureDebut, h, creerDfInitial]
        · rw [hrow]

lemma inv_trackerInit (s : ℚ) (today : String) (load : LoadResult) :
    Inv (trackerInit s today load) := by
  obtain ⟨r, rs, hdf, hty⟩ := ensureDebut_shape s today (loadDf s today load)
  have hcalc := calc_eq_recompute
    { soldeInitial := s, df := ensureDebut s today (loadDf s today load),
      bankrollActuelle := s } s r rs hdf hty
  have hchg : chargerOuInitialiser s today load =
      calculerBankrollHistorique
        { soldeInitial := s, df := ensureDebut s today (loadDf s today load),
          bankrollActuelle := s } s := rfl
  have hdf2 : (chargerOuInitialiser s today load).df
      = recomputeBF r.bankrollFinale (r :: rs) := by
    rw [hchg, hcalc]
    simpa using congrArg (fun l => recomputeBF r.bankrollFinale l) hdf
  have hne : (chargerOuInitialiser s today load).df ≠ [] := by
    rw [hdf2, recomputeBF]; simp
  have htr : trackerInit s today load =
      { chargerOuInitialiser s today load with
        bankrollActuelle :=
          ((chargerOuInitialiser s today load).df.getLastD dRow).bankrollFinale } := by
    rw [trackerInit]
    simp only [List.isEmpty_iff, hne, if_false]
  refine ⟨?_, ?_, ?_, ?_⟩
  · rw [htr]; exact hne
  · rw [htr]
    show ((chargerOuInitialiser s today load).df.headD dRow).ty = "DEBUT"
    rw [hdf2, recomputeBF]
    exact hty
  · rw [htr]
    show List.Chain' stepR (chargerOuInitialiser s today load).df
    rw [hdf2]
    exact recomputeBF_chain _ _
  · rw [htr]

lemma inv_append (t : BankrollTracker) (row : Row) (h : Inv t)
    (hrow : row.bankrollFinale = t.bankrollActuelle + row.gainNet) :
    Inv { t with df := t.df ++ [row], bankrollActuelle := row.bankrollFinale } := by
  obtain ⟨hne, hhead, hchain, hba⟩ := h
  refine ⟨by simp, ?_, ?_, ?_⟩
  · show ((t.df ++ [row]).headD dRow).ty = "DEBUT"
    rw [headD_append_single _ _ _ hne]
    exact hhead
  · show List.Chain' stepR (t.df ++ [row])
    rw [List.chain'_append]
    refine ⟨hchain, List.chain'_singleton _, ?_⟩
    intro x hx y hy
    simp only [List.head?_cons, Option.mem_def, Option.some.injEq] at hy
    rw [getLast?_eq_getLastD t.df hne] at hx
    simp only [Option.mem_def, Option.some.injEq] at hx
    subst hx
    subst hy
    show row.bankrollFinale = (t.df.getLastD dRow).bankrollFinale + row.gainNet
    rw [hrow, hba]
  · show row.bankrollFinale = ((t.df ++ [row]).getLastD dRow).bankrollFinale
    rw [getLastD_append_single]

lemma inv_step {t t' : BankrollTracker} (h : Inv t) (hs : Step t t') : Inv t' := by
  cases hs with
  | pari dateStr montantPari cote resultat detailsPari sheetOk =>
      by_cases hr : resultat ∈ (["Gagné", "Perdu", "Annulé"] : List String)
      · have hx : (ajouterPari t dateStr montantPari cote resultat detailsPari sheetOk).1
            = { t with
                df := t.df ++
                  [{ date := dateStr, ty := "Pari", montantPari := montantPari,
                     cote := cote, resultat := resultat,
                     gainNet := pariGainNet montantPari cote resultat,
                     bankrollFinale :=
                       t.bankrollActuelle + pariGainNet montantPari cote resultat,
                     detailsPari := detailsPari }],
                bankrollActuelle :=
                  t.bankrollActuelle + pariGainNet montantPari cote resultat } := by
          simp [ajouterPari, hr]
        rw [hx]
        exact inv_append t _ h rfl
      · have hx : (ajouterPari t dateStr montantPari cote resultat detailsPari sheetOk).1 = t := by
          simp [ajouterPari, hr]
        rw [hx]; exact h
  | fonds montant typeOperation today sheetOk =>
      by_cases hr : typeOperation ∈ (["DEPOT", "RETRAIT"] : List String)
      · have hx : (ajouterFonds t montant typeOperation today sheetOk).1
            = { t with
                df := t.df ++
                  [{ date := today, ty := typeOperation, montantPari := 0, cote := 0,
                     resultat := "N/A",
                     gainNet := if typeOperation = "DEPOT" then montant else -montant,
                     bankrollFinale := t.bankrollActuelle +
                       (if typeOperation = "DEPOT" then montant else -montant),
                     detailsPari := "N/A" }],
                bankrollActuelle := t.bankrollActuelle +
                  (if typeOperation = "DEPOT" then montant else -montant) } := by
          simp [ajouterFonds, hr]
        rw [hx]
        exact inv_append t _ h rfl
      · have hx : (ajouterFonds t montant typeOperation today sheetOk).1 = t := by
          simp [ajouterFonds, hr]
        rw [hx]; exact h

lemma reachable_inv {t : BankrollTracker} (h : Reachable t) : Inv t := by
  induction h with
  | init s today load => exact inv_trackerInit s today load
  | step _ hs ih => exact inv_step ih hs

/-- Closed form of `__init__` when the validated dataframe is `r :: rs` with
`r` the `DEBUT` row. -/
lemma trackerInit_eq (s : ℚ) (today : String) (load : LoadResult) (r : Row)
    (rs : List Row) (hdf : ensureDebut s today (loadDf s today load) = r :: rs)
    (hty : r.ty = "DEBUT") :
    trackerInit s today load =
      { soldeInitial := s, df := recomputeBF r.bankrollFinale (r :: rs),
        bankrollActuelle :=
          ((recomputeBF r.bankrollFinale (r :: rs)).getLastD dRow).bankrollFinale } := by
  have hcalc := calc_eq_recompute
    { soldeInitial := s, df := ensureDebut s today (loadDf s today load),
      bankrollActuelle := s } s r rs hdf hty
  have hchg : chargerOuInitialiser s today load =
      { soldeInitial := s, df := recomputeBF r.bankrollFinale (r :: rs),
        bankrollActuelle :=
          ((recomputeBF r.bankrollFinale (r :: rs)).getLastD dRow).bankrollFinale } := by
    show calculerBankrollHistorique
      { soldeInitial := s, df := ensureDebut s today (loadDf s today load),
        bankrollActuelle := s } s = _
    rw [hcalc, hdf]
  rw [trackerInit.eq_def, hchg]
  simp only [recomputeBF, List.isEmpty_cons, Bool.false_eq_true, if_false]

/-- The discarded-load cases all validate to the fresh initial dataframe. -/
lemma ensureDebut_of_badLoad (s : ℚ) (today : String) (load : LoadResult)
    (h : badLoad load) :
    ensureDebut s today (loadDf s today load) = creerDfInitial s today := by
  have hcreer : ensureDebut s today (creerDfInitial s today) = creerDfInitial s today := by
    simp [ensureDebut, creerDfInitial]
  cases load with
  | noSheet => exact hcreer
  | rows hasAllColumns data =>
      rcases h with h | h | ⟨r0, rs, hdata, hty⟩
      · subst h; simpa [loadDf] using hcreer
      · subst h; simpa [loadDf] using hcreer
      · subst hdata
        by_cases hcols : hasAllColumns
        · subst hcols
          have hload : loadDf s today (LoadResult.rows true (r0 :: rs))
              = (r0 :: rs).map coerceRow := by simp [loadDf]
          rw [hload]
          simp [ensureDebut, coerceRow, hty]
        · have : hasAllColumns = false := by simpa using hcols
          subst this
          simpa [loadDf] using hcreer

/-! ### The claims -/

/-- C5: for every ledger and every valid wager append (outcome in
Gagné/Perdu/Annulé, stake > 0, odds ≥ 1), `ajouter_pari` computes the net gain
as `stake * odds - stake` when won, `-stake` when lost, `0` when void, appends
a row carrying that gain and sets the new balance to the previous balance plus
that gain. -/
theorem C5_ajouterPari_net_delta (t : BankrollTracker) (dateStr : String)
    (montantPari cote : ℚ) (resultat detailsPari : String) (sheetOk : Bool)
    (hr : resultat ∈ (["Gagné", "Perdu", "Annulé"] : List String))
    (_hm : 0 < montantPari) (_hc : 1 ≤ cote) :
    (ajouterPari t dateStr montantPari cote resultat detailsPari sheetOk).1.bankrollActuelle
      = t.bankrollActuelle + pariGainNet montantPari cote resultat ∧
    ((ajouterPari t dateStr montantPari cote resultat detailsPari
        sheetOk).1.df.getLastD dRow).gainNet
      = pariGainNet montantPari cote resultat ∧
    pariGainNet montantPari cote "Gagné" = montantPari * cote - montantPari ∧
    pariGainNet montantPari cote "Perdu" = -montantPari ∧
    pariGainNet montantPari cote "Annulé" = 0 := by
  refine ⟨by simp [ajouterPari, hr], ?_, by simp [pariGainNet], by simp [pariGainNet],
    by simp [pariGainNet]⟩
  simp [ajouterPari, hr, getLastD_append_single]

/-- Witness for C5 at the spec's concrete instance: outcome Gagné, stake 10,
odds 5/2 on balance 100 gives net gain 15 and new balance 115. -/
theorem C5_ajouterPari_net_delta_witness :
    "Gagné" ∈ (["Gagné", "Perdu", "Annulé"] : List String) ∧ (0 : ℚ) < 10 ∧
    (1 : ℚ) ≤ 5 / 2 ∧
    (ajouterPari ⟨0, [], 100⟩ "2026-01-01" 10 (5 / 2) "Gagné" "Général"
        true).1.bankrollActuelle
      = (⟨0, [], 100⟩ : BankrollTracker).bankrollActuelle
          + pariGainNet 10 (5 / 2) "Gagné" ∧
    (ajouterPari ⟨0, [], 100⟩ "2026-01-01" 10 (5 / 2) "Gagné" "Général"
        true).1.bankrollActuelle = 115 ∧
    pariGainNet 10 (5 / 2) "Gagné" = 15 :=
  ⟨by decide, by norm_num, by norm_num,
   (C5_ajouterPari_net_delta ⟨0, [], 100⟩ "2026-01-01" 10 (5 / 2) "Gagné" "Général"
      true (by decide) (by norm_num) (by norm_num)).1,
   by norm_num [ajouterPari, pariGainNet], by norm_num [pariGainNet]⟩

/-- C7 (amended): `ajouter_fonds` rejects the append — returning the error
message with the sequence and balance untouched — exactly when the operation
tag is outside DEPOT/RETRAIT; it performs no validation of the amount. -/
theorem C7_invalid_operation_rejected (t : BankrollTracker) (montant : ℚ)
    (typeOperation today : String) (sheetOk : Bool)
    (h : typeOperation ∉ (["DEPOT", "RETRAIT"] : List String)) :
    ajouterFonds t montant typeOperation today sheetOk = (t, .s errFonds) ∧
    errFonds ≠ "" := by
  refine ⟨by simp [ajouterFonds, h], by decide⟩

/-- Witness for C7 (amended) at the tag "VIREMENT". -/
theorem C7_invalid_operation_rejected_witness :
    "VIREMENT" ∉ (["DEPOT", "RETRAIT"] : List String) ∧
    (ajouterFonds ⟨0, [], 0⟩ 50 "VIREMENT" "2026-01-01" true
      = (⟨0, [], 0⟩, .s errFonds) ∧ errFonds ≠ "") :=
  ⟨by decide,
   C7_invalid_operation_rejected ⟨0, [], 0⟩ 50 "VIREMENT" "2026-01-01" true (by decide)⟩

/-- C7 counterexample: a non-positive amount with a valid tag is NOT rejected:
`ajouter_fonds(-5, DEPOT)` on the fresh reachable state appends a row and
moves the balance to -5, returning the save result — the claim's "fails with
a ValidationError ... when the amount is non-positive, ... the event sequence
and the current balance are unchanged" is false there. -/
theorem C7_counterexample :
    Reachable (trackerInit 0 "2026-10-12" LoadResult.noSheet) ∧
    ((-5 : ℚ) ≤ 0) ∧
    (trackerInit 0 "2026-10-12" LoadResult.noSheet).df.length = 1 ∧
    (trackerInit 0 "2026-10-12" LoadResult.noSheet).bankrollActuelle = 0 ∧
    (ajouterFonds (trackerInit 0 "2026-10-12" LoadResult.noSheet) (-5) "DEPOT"
        "2026-10-12" true).1.df.length = 2 ∧
    (ajouterFonds (trackerInit 0 "2026-10-12" LoadResult.noSheet) (-5) "DEPOT"
        "2026-10-12" true).1.bankrollActuelle = -5 ∧
    (ajouterFonds (trackerInit 0 "2026-10-12" LoadResult.noSheet) (-5) "DEPOT"
        "2026-10-12" true).2 = PyRet.b true :=
  ⟨Reachable.init 0 "2026-10-12" LoadResult.noSheet, by norm_num, by decide,
   by norm_num [trackerInit, chargerOuInitialiser, calculerBankrollHistorique, loadDf,
     ensureDebut, creerDfInitial, cumsum, cumsumFrom, List.find?, dRow],
   by decide,
   by norm_num [trackerInit, chargerOuInitialiser, calculerBankrollHistorique, loadDf,
     ensureDebut, creerDfInitial, cumsum, cumsumFrom, List.find?, dRow, ajouterFonds],
   by decide⟩

/-- C8: a valid append (wager or fund movement) appends in memory and updates
the balance independently of the gateway outcome; the returned value is the
gateway confirmation, and a failed write does not roll back the append. -/
theorem C8_append_kept_save_reported (t : BankrollTracker) (dateStr : String)
    (montantPari cote : ℚ) (resultat detailsPari : String)
    (hr : resultat ∈ (["Gagné", "Perdu", "Annulé"] : List String))
    (montant : ℚ) (typeOperation today : String)
    (hop : typeOperation ∈ (["DEPOT", "RETRAIT"] : List String)) (sheetOk : Bool) :
    (ajouterPari t dateStr montantPari cote resultat detailsPari sheetOk).1
      = (ajouterPari t dateStr montantPari cote resultat detailsPari true).1 ∧
    (ajouterPari t dateStr montantPari cote resultat detailsPari sheetOk).1.df.length
      = t.df.length + 1 ∧
    (ajouterPari t dateStr montantPari cote resultat detailsPari sheetOk).2
      = PyRet.b (sauvegarder sheetOk) ∧
    (ajouterFonds t montant typeOperation today sheetOk).1
      = (ajouterFonds t montant typeOperation today true).1 ∧
    (ajouterFonds t montant typeOperation today sheetOk).1.df.length
      = t.df.length + 1 ∧
    (ajouterFonds t montant typeOperation today sheetOk).2
      = PyRet.b (sauvegarder sheetOk) ∧
    (sauvegarder sheetOk = true ↔ sheetOk = true) := by
  refine ⟨?_, ?_, ?_, ?_, ?_, ?_, ?_⟩ <;>
    simp [ajouterPari, ajouterFonds, hr, hop, sauvegarder]

/-- Witness for C8: a lost wager and a withdrawal on a concrete state, with a
failing gateway. -/
theorem C8_append_kept_save_reported_witness :
    "Perdu" ∈ (["Gagné", "Perdu", "Annulé"] : List String) ∧
    "RETRAIT" ∈ (["DEPOT", "RETRAIT"] : List String) ∧
    ((ajouterPari ⟨0, [], 100⟩ "2026-01-01" 10 2 "Perdu" "x" false).1
        = (ajouterPari ⟨0, [], 100⟩ "2026-01-01" 10 2 "Perdu" "x" true).1 ∧
      (ajouterPari ⟨0, [], 100⟩ "2026-01-01" 10 2 "Perdu" "x" false).1.df.length
        = (⟨0, [], 100⟩ : BankrollTracker).df.length + 1 ∧
      (ajouterPari ⟨0, [], 100⟩ "2026-01-01" 10 2 "Perdu" "x" false).2
        = PyRet.b (sauvegarder false) ∧
      (ajouterFonds ⟨0, [], 100⟩ 20 "RETRAIT" "2026-01-01" false).1
        = (ajouterFonds ⟨0, [], 100⟩ 20 "RETRAIT" "2026-01-01" true).1 ∧
      (ajouterFonds ⟨0, [], 100⟩ 20 "RETRAIT" "2026-01-01" false).1.df.length
        = (⟨0, [], 100⟩ : BankrollTracker).df.length + 1 ∧
      (ajouterFonds ⟨0, [], 100⟩ 20 "RETRAIT" "2026-01-01" false).2
        = PyRet.b (sauvegarder false) ∧
      (sauvegarder false = true ↔ false = true)) :=
  ⟨by decide, by decide,
   C8_append_kept_save_reported ⟨0, [], 100⟩ "2026-01-01" 10 2 "Perdu" "x" (by decide)
     20 "RETRAIT" "2026-01-01" (by decide) false⟩

/-- C10: an out-of-domain outcome (resp. operation tag) makes `ajouter_pari`
(resp. `ajouter_fonds`) return a non-empty error string — not an exception and
not `False` — and that string is truthy, indistinguishable by a truthiness
test from a successful save's `True`. -/
theorem C10_error_string_truthy (t : BankrollTracker) (dateStr : String)
    (montantPari cote : ℚ) (resultat detailsPari : String) (sheetOk : Bool)
    (hr : resultat ∉ (["Gagné", "Perdu", "Annulé"] : List String))
    (montant : ℚ) (typeOperation today : String)
    (hop : typeOperation ∉ (["DEPOT", "RETRAIT"] : List String)) :
    (ajouterPari t dateStr montantPari cote resultat detailsPari sheetOk).2
      = PyRet.s errPari ∧
    (ajouterFonds t montant typeOperation today sheetOk).2 = PyRet.s errFonds ∧
    errPari ≠ "" ∧ errFonds ≠ "" ∧
    truthy (PyRet.s errPari) = true ∧ truthy (PyRet.s errFonds) = true ∧
    truthy (PyRet.b (sauvegarder true)) = true := by
  refine ⟨by simp [ajouterPari, hr], by simp [ajouterFonds, hop], by decide, by decide,
    by decide, by decide, by decide⟩

/-- Witness for C10 at outcome "Nul" and tag "VIREMENT". -/
theorem C10_error_string_truthy_witness :
    "Nul" ∉ (["Gagné", "Perdu", "Annulé"] : List String) ∧
    "VIREMENT" ∉ (["DEPOT", "RETRAIT"] : List String) ∧
    ((ajouterPari ⟨0, [], 0⟩ "2026-01-01" 10 2 "Nul" "x" true).2 = PyRet.s errPari ∧
      (ajouterFonds ⟨0, [], 0⟩ 50 "VIREMENT" "2026-01-01" true).2 = PyRet.s errFonds ∧
      errPari ≠ "" ∧ errFonds ≠ "" ∧
      truthy (PyRet.s errPari) = true ∧ truthy (PyRet.s errFonds) = true ∧
      truthy (PyRet.b (sauvegarder true)) = true) :=
  ⟨by decide, by decide,
   C10_error_string_truthy ⟨0, [], 0⟩ "2026-01-01" 10 2 "Nul" "x" true (by decide)
     50 "VIREMENT" "2026-01-01" (by decide)⟩

/-- C9: with zero wager rows the statistics engine returns the falsy
"no statistics available" sentinel (`none`), and whenever statistics are
returned the `win_rate` denominator (`wager_count`) is positive and the
`return_on_investment` division is guarded: with non-positive `total_staked`
it is `0`, never a division by zero. -/
theorem C9_zero_wagers_no_stats (t : BankrollTracker) :
    ((t.df.filter fun r => r.ty == "Pari") = [] → calculerStatistiques t = none) ∧
    ∀ st : Stats, calculerStatistiques t = some st →
      0 < st.wagerCount ∧ (st.totalStaked ≤ 0 → st.returnOnInvestment = 0) := by
  constructor
  · intro h
    simp [calculerStatistiques, h]
  · intro st hst
    rw [calculerStatistiques] at hst
    by_cases h : (t.df.filter fun r => r.ty == "Pari").length = 0
    · simp [h] at hst
    · simp only [h, if_false, Option.some.injEq] at hst
      subst hst
      refine ⟨Nat.pos_of_ne_zero h, ?_⟩
      intro hts
      simp only at hts ⊢
      rw [if_neg (not_lt.mpr hts)]

/-- Witness for C9 on the fresh anchor-only ledger: it has no wager row, so
statistics are the sentinel. -/
theorem C9_zero_wagers_no_stats_witness :
    ((trackerInit 0 "2026-10-12" LoadResult.noSheet).df.filter
        fun r => r.ty == "Pari") = [] ∧
    calculerStatistiques (trackerInit 0 "2026-10-12" LoadResult.noSheet) = none :=
  ⟨by decide,
   (C9_zero_wagers_no_stats (trackerInit 0 "2026-10-12" LoadResult.noSheet)).1 (by decide)⟩

/-- C6: whenever the load is discarded (no rows, missing columns, or first
row's kind not DEBUT), `__init__` yields exactly the single fresh `DEBUT`
row dated today with `Bankroll_Finale` the configured starting balance and the
other numeric fields zero, and the current balance is that starting balance. -/
theorem C6_bad_load_fresh_anchor (s : ℚ) (today : String) (load : LoadResult)
    (h : badLoad load) :
    trackerInit s today load =
      { soldeInitial := s,
        df := [{ date := today, ty := "DEBUT", montantPari := 0, cote := 0,
                 resultat := "N/A", gainNet := 0, bankrollFinale := s,
                 detailsPari := "N/A" }],
        bankrollActuelle := s } := by
  have hens := ensureDebut_of_badLoad s today load h
  have heq := trackerInit_eq s today load
    { date := today, ty := "DEBUT", montantPari := 0, cote := 0, resultat := "N/A",
      gainNet := 0, bankrollFinale := s, detailsPari := "N/A" } []
    (by rw [hens]; rfl) rfl
  rw [heq]
  simp [recomputeBF, getLastD_cons']

/-- Witness for C6: a load with the columns present but no data rows, with
starting balance 7. -/
theorem C6_bad_load_fresh_anchor_witness :
    badLoad (LoadResult.rows true []) ∧
    trackerInit 7 "2026-10-12" (LoadResult.rows true []) =
      { soldeInitial := 7,
        df := [{ date := "2026-10-12", ty := "DEBUT", montantPari := 0, cote := 0,
                 resultat := "N/A", gainNet := 0, bankrollFinale := 7,
                 detailsPari := "N/A" }],
        bankrollActuelle := 7 } :=
  ⟨Or.inl rfl,
   C6_bad_load_fresh_anchor 7 "2026-10-12" (LoadResult.rows true []) (Or.inl rfl)⟩

/-- C2: on every reachable ledger state (any `__init__` result followed by any
appends), the dataframe is non-empty, `Bankroll_Finale[i] = Bankroll_Finale[i-1]
+ Gain_Net[i]` for every index `i > 0`, and `bankroll_actuelle` equals the last
row's `Bankroll_Finale`. -/
theorem C2_running_balance_cumulative (t : BankrollTracker) (h : Reachable t) :
    t.df ≠ [] ∧
    (∀ i : ℕ, i + 1 < t.df.length →
      (t.df.getD (i + 1) dRow).bankrollFinale
        = (t.df.getD i dRow).bankrollFinale + (t.df.getD (i + 1) dRow).gainNet) ∧
    t.bankrollActuelle = (t.df.getLastD dRow).bankrollFinale := by
  obtain ⟨hne, _, hchain, hba⟩ := reachable_inv h
  exact ⟨hne, fun i hi => chain'_getD t.df hchain i hi, hba⟩

/-- Witness for C2 on the reachable state obtained by a deposit of 50 on the
fresh ledger (two rows, adjacent pair at indices 0 and 1). -/
theorem C2_running_balance_cumulative_witness :
    (((ajouterFonds (trackerInit 0 "2026-10-12" LoadResult.noSheet) 50 "DEPOT"
          "2026-10-12" true).1.df.getD 1 dRow).bankrollFinale
      = (((ajouterFonds (trackerInit 0 "2026-10-12" LoadResult.noSheet) 50 "DEPOT"
          "2026-10-12" true).1.df.getD 0 dRow).bankrollFinale
        + ((ajouterFonds (trackerInit 0 "2026-10-12" LoadResult.noSheet) 50 "DEPOT"
          "2026-10-12" true).1.df.getD 1 dRow).gainNet)) ∧
    (ajouterFonds (trackerInit 0 "2026-10-12" LoadResult.noSheet) 50 "DEPOT"
        "2026-10-12" true).1.bankrollActuelle
      = ((ajouterFonds (trackerInit 0 "2026-10-12" LoadResult.noSheet) 50 "DEPOT"
        "2026-10-12" true).1.df.getLastD dRow).bankrollFinale := by
  have hreach : Reachable (ajouterFonds (trackerInit 0 "2026-10-12" LoadResult.noSheet)
      50 "DEPOT" "2026-10-12" true).1 :=
    Reachable.step (Reachable.init 0 "2026-10-12" LoadResult.noSheet)
      (Step.fonds (trackerInit 0 "2026-10-12" LoadResult.noSheet) 50 "DEPOT"
        "2026-10-12" true)
  have h := C2_running_balance_cumulative _ hreach
  exact ⟨h.2.1 0 (by decide), h.2.2⟩

/-- C3 (amended): on every reachable ledger state the event sequence is
non-empty and its first row has kind DEBUT; appends never add another DEBUT
row, but the uniqueness half of the claim fails for loads whose stored rows
contain further DEBUT rows (only the first row is validated). -/
theorem C3_first_row_debut (t : BankrollTracker) (h : Reachable t) :
    t.df ≠ [] ∧ (t.df.headD dRow).ty = "DEBUT" := by
  obtain ⟨hne, hh, _, _⟩ := reachable_inv h
  exact ⟨hne, hh⟩

/-- Witness for C3 (amended) on the fresh ledger. -/
theorem C3_first_row_debut_witness :
    (trackerInit 0 "2026-10-12" LoadResult.noSheet).df ≠ [] ∧
    ((trackerInit 0 "2026-10-12" LoadResult.noSheet).df.headD dRow).ty = "DEBUT" :=
  C3_first_row_debut (trackerInit 0 "2026-10-12" LoadResult.noSheet)
    (Reachable.init 0 "2026-10-12" LoadResult.noSheet)

/-- C3 counterexample: loading a stored table whose rows are two DEBUT rows
passes validation (only the first row is checked), so a reachable state
contains two rows of kind DEBUT — "no other element in the sequence has kind
ANCHOR" is false there. -/
theorem C3_counterexample :
    Reachable (trackerInit 0 "2026-10-12" (LoadResult.rows true [rawAnchor, rawAnchor])) ∧
    ((trackerInit 0 "2026-10-12" (LoadResult.rows true [rawAnchor, rawAnchor])).df.filter
        fun r => r.ty == "DEBUT").length = 2 :=
  ⟨Reachable.init 0 "2026-10-12" (LoadResult.rows true [rawAnchor, rawAnchor]),
   by decide⟩

/-- C1 counterexample: loading an anchor plus a won wager row (stake 10,
odds 3) whose stored `Gain_Net` is 999 leaves `Gain_Net = 999` after
`__init__`, while the §4.2 table gives 20 — the claimed recomputation of
`net_delta` on load does not happen. -/
theorem C1_counterexample :
    Reachable (trackerInit 0 "2026-10-12"
      (LoadResult.rows true [rawAnchor, rawWagerStored])) ∧
    ((trackerInit 0 "2026-10-12"
        (LoadResult.rows true [rawAnchor, rawWagerStored])).df.getD 1 dRow).ty
      = "Pari" ∧
    ((trackerInit 0 "2026-10-12"
        (LoadResult.rows true [rawAnchor, rawWagerStored])).df.getD 1 dRow).montantPari
      = 10 ∧
    ((trackerInit 0 "2026-10-12"
        (LoadResult.rows true [rawAnchor, rawWagerStored])).df.getD 1 dRow).cote
      = 3 ∧
    ((trackerInit 0 "2026-10-12"
        (LoadResult.rows true [rawAnchor, rawWagerStored])).df.getD 1 dRow).resultat
      = "Gagné" ∧
    ((trackerInit 0 "2026-10-12"
        (LoadResult.rows true [rawAnchor, rawWagerStored])).df.getD 1 dRow).gainNet
      = 999 ∧
    specNetDelta "Pari" 10 3 "Gagné" = 20 ∧ (999 : ℚ) ≠ 20 :=
  ⟨Reachable.init 0 "2026-10-12" (LoadResult.rows true [rawAnchor, rawWagerStored]),
   by decide, by decide, by decide, by decide, by decide,
   by rw [specNetDelta, if_neg (by decide), if_pos rfl, if_pos rfl]; norm_num,
   by norm_num⟩

/-- C1 (amended): on an accepted load `__init__` trusts the stored (coerced)
`Gain_Net` column as-is — it does not recompute it from
kind/stake/odds/outcome — and recomputes only `Bankroll_Finale`, as the
cumulative sum of those stored deltas from the anchor row's stored balance. -/
theorem C1_gainNet_trusted_on_load (s : ℚ) (today : String) (r0 : RawRow)
    (data : List RawRow) (hty : r0.ty = "DEBUT") :
    (trackerInit s today (LoadResult.rows true (r0 :: data))).df.map
        (fun r => r.gainNet)
      = (r0 :: data).map (fun r => r.gainNet.getD 0) ∧
    List.Chain' stepR (trackerInit s today (LoadResult.rows true (r0 :: data))).df := by
  have hload : loadDf s today (LoadResult.rows true (r0 :: data))
      = (r0 :: data).map coerceRow := by simp [loadDf]
  have hens : ensureDebut s today (loadDf s today (LoadResult.rows true (r0 :: data)))
      = coerceRow r0 :: data.map coerceRow := by
    rw [hload, List.map_cons]
    simp [ensureDebut, coerceRow, hty]
  have heq := trackerInit_eq s today (LoadResult.rows true (r0 :: data))
    (coerceRow r0) (data.map coerceRow) hens hty
  rw [heq]
  constructor
  · show (recomputeBF (coerceRow r0).bankrollFinale
        (coerceRow r0 :: data.map coerceRow)).map (fun r => r.gainNet) = _
    rw [recomputeBF_map_gainNet, ← List.map_cons, List.map_map]
    rfl
  · exact recomputeBF_chain _ _

/-- Witness for C1 (amended): the load of `[rawAnchor, rawWagerStored]`. -/
theorem C1_gainNet_trusted_on_load_witness :
    rawAnchor.ty = "DEBUT" ∧
    ((trackerInit 0 "2026-10-12"
        (LoadResult.rows true [rawAnchor, rawWagerStored])).df.map
          (fun r => r.gainNet)
        = [rawAnchor, rawWagerStored].map (fun r => r.gainNet.getD 0) ∧
      List.Chain' stepR (trackerInit 0 "2026-10-12"
        (LoadResult.rows true [rawAnchor, rawWagerStored])).df) :=
  ⟨rfl, C1_gainNet_trusted_on_load 0 "2026-10-12" rawAnchor [rawWagerStored] rfl⟩

/-- C4 counterexample: after loading a stored table whose single DEBUT row
carries stored `Gain_Net = 5` and balance 100 (an accepted, reachable state),
one further recomputation gives balance 110 and two give 115 — running the
pass twice differs from running it once. -/
theorem C4_counterexample :
    Reachable (trackerInit 0 "2026-10-12" (LoadResult.rows true [rawAnchorG5])) ∧
    (calculerBankrollHistorique
        (trackerInit 0 "2026-10-12" (LoadResult.rows true [rawAnchorG5]))
        (trackerInit 0 "2026-10-12"
          (LoadResult.rows true [rawAnchorG5])).soldeInitial).bankrollActuelle
      = 110 ∧
    (calculerBankrollHistorique
        (calculerBankrollHistorique
          (trackerInit 0 "2026-10-12" (LoadResult.rows true [rawAnchorG5]))
          (trackerInit 0 "2026-10-12"
            (LoadResult.rows true [rawAnchorG5])).soldeInitial)
        (trackerInit 0 "2026-10-12"
          (LoadResult.rows true [rawAnchorG5])).soldeInitial).bankrollActuelle
      = 115 ∧
    (110 : ℚ) ≠ 115 :=
  ⟨Reachable.init 0 "2026-10-12" (LoadResult.rows true [rawAnchorG5]),
   by norm_num [trackerInit, chargerOuInitialiser, calculerBankrollHistorique, loadDf,
     ensureDebut, creerDfInitial, cumsum, cumsumFrom, coerceRow, rawAnchorG5,
     List.find?, dRow],
   by norm_num [trackerInit, chargerOuInitialiser, calculerBankrollHistorique, loadDf,
     ensureDebut, creerDfInitial, cumsum, cumsumFrom, coerceRow, rawAnchorG5,
     List.find?, dRow],
   by norm_num⟩

/-- C4 (amended): the recomputation pass is idempotent on every ledger state
whose first row is a DEBUT row with `Gain_Net = 0` — true of every ledger the
engine itself creates; it can differ on loads whose first DEBUT row carries a
nonzero stored `Gain_Net`. -/
theorem C4_idempotent_on_clean_anchor (t : BankrollTracker) (s : ℚ) (r : Row)
    (rs : List Row) (hdf : t.df = r :: rs) (hty : r.ty = "DEBUT")
    (hg : r.gainNet = 0) :
    calculerBankrollHistorique (calculerBankrollHistorique t s) s
      = calculerBankrollHistorique t s := by
  have h1 := calc_eq_recompute t s r rs hdf hty
  have hdf1 : (calculerBankrollHistorique t s).df
      = ({ r with bankrollFinale := r.bankrollFinale + r.gainNet })
        :: recomputeBF (r.bankrollFinale + r.gainNet) rs := by
    rw [h1]
    show recomputeBF r.bankrollFinale t.df = _
    rw [hdf]
    rfl
  have h2 := calc_eq_recompute (calculerBankrollHistorique t s) s _ _ hdf1
    (show ({ r with bankrollFinale := r.bankrollFinale + r.gainNet } : Row).ty
        = "DEBUT" from hty)
  rw [h2]
  have hbf : ({ r with bankrollFinale := r.bankrollFinale + r.gainNet } :
      Row).bankrollFinale = r.bankrollFinale := by
    show r.bankrollFinale + r.gainNet = r.bankrollFinale
    rw [hg, add_zero]
  rw [hbf]
  have hdfA : (calculerBankrollHistorique t s).df
      = recomputeBF r.bankrollFinale t.df := by rw [h1]
  have hidem : recomputeBF r.bankrollFinale (calculerBankrollHistorique t s).df
      = (calculerBankrollHistorique t s).df := by
    rw [hdfA, recomputeBF_idem]
  rw [hidem]
  have hba : (calculerBankrollHistorique t s).bankrollActuelle
      = (((calculerBankrollHistorique t s).df).getLastD dRow).bankrollFinale := by
    rw [h1]
  rw [← hba]

/-- Witness for C4 (amended): the fresh anchor-only dataframe with starting
balance 5. -/
theorem C4_idempotent_on_clean_anchor_witness :
    calculerBankrollHistorique
        (calculerBankrollHistorique
          ⟨5, creerDfInitial 5 "2026-10-12", 5⟩ 5) 5
      = calculerBankrollHistorique ⟨5, creerDfInitial 5 "2026-10-12", 5⟩ 5 :=
  C4_idempotent_on_clean_anchor ⟨5, creerDfInitial 5 "2026-10-12", 5⟩ 5
    { date := "2026-10-12", ty := "DEBUT", montantPari := 0, cote := 0,
      resultat := "N/A", gainNet := 0, bankrollFinale := 5, detailsPari := "N/A" }
    [] rfl rfl rfl

end Bankroll
